import Mathlib

/-!
Verification of the query-intent resolution and dispatch pipeline of the
restaurant-assistant repository.

The embedding below is a shallow model of:
  * `src/lib/openai.ts` — the deployed `RateLimiter` (prune-only admission
    check, `recordRequest` defined but never invoked), and the alternate
    version of the same module (here `canMakeRequest5`) whose admission
    check records a timestamp on success;
  * `src/lib/aiAgent.ts` — `analyzeQuery`, `generateResponse`,
    `processMessageInternal` and `processMessage` of class `AIAgent`.

Modelling conventions:
  * JavaScript exceptions are `Except JsError`; a function that cannot throw
    returns a plain value.
  * Timestamps are `Int` milliseconds; the outcome of `Promise.race` against
    the overall deadline is an explicit `RaceOutcome` parameter, since real
    time is not modelled.
  * External LLM calls are oracles of type `Except JsError (Option String)`:
    either a thrown error or a response whose `choices[0]?.message?.content`
    is the optional string.
  * Monetary values (item price, revenue) are exact cent counts (`Nat`);
    `jsNum` and `toFixed2` model JavaScript number rendering for such values.
  * Mutation of `this.requests` / `this.isProcessing` is explicit state
    passing.
-/

/-- Boolean prefix test on character lists. -/
def isPrefixOfB : List Char → List Char → Bool
  | [], _ => true
  | _ :: _, [] => false
  | a :: as, b :: bs => a == b && isPrefixOfB as bs

/-- Boolean infix (substring) test: does the haystack contain `pat`? -/
def infixOfB (pat : List Char) : List Char → Bool
  | [] => isPrefixOfB pat []
  | a :: t => isPrefixOfB pat (a :: t) || infixOfB pat t

/-- Models JavaScript `haystack.includes(pat)`. -/
def strIncludes (haystack pat : String) : Bool :=
  infixOfB pat.toList haystack.toList

/-- Models JavaScript `String.prototype.toLowerCase` (ASCII range suffices here). -/
def jsToLower (s : String) : String :=
  String.mk (s.toList.map Char.toLower)

/-- JavaScript whitespace test for the characters relevant to `trim`. -/
def isWsChar (c : Char) : Bool :=
  c == ' ' || c == '\t' || c == '\n' || c == '\r'

/-- Models JavaScript `String.prototype.trim`. -/
def jsTrim (s : String) : String :=
  String.mk (((s.toList.dropWhile isWsChar).reverse.dropWhile isWsChar).reverse)

/-- Models JavaScript `array.split` of a string on one separator character. -/
def splitOnCharB (c : Char) : List Char → List (List Char)
  | [] => [[]]
  | a :: as =>
    match splitOnCharB c as with
    | [] => [[a]]
    | g :: gs => if a == c then [] :: g :: gs else (a :: g) :: gs

/-- Models JavaScript `s.split('|')`. -/
def jsSplitBar (s : String) : List String :=
  (splitOnCharB '|' s.toList).map String.mk

/-- Models JavaScript `list.join(sep)`. -/
def jsJoin (sep : String) : List String → String
  | [] => ""
  | [a] => a
  | a :: b :: rest => a ++ sep ++ jsJoin sep (b :: rest)

/-- Models the JavaScript falsy-default idiom `x || dflt` for strings
(`undefined` and `""` both fall through to the default). -/
def jsOrDefault (s : Option String) (dflt : String) : String :=
  match s with
  | some v => if v = "" then dflt else v
  | none => dflt

/-- Models JavaScript number-to-string rendering for an exact amount of
cents (`245.5` prints as `"245.5"`, `9` as `"9"`, `8.99` as `"8.99"`). -/
def jsNum (cents : Nat) : String :=
  if cents % 100 = 0 then toString (cents / 100)
  else if cents % 10 = 0 then toString (cents / 100) ++ "." ++ toString (cents % 100 / 10)
  else if cents % 100 < 10 then toString (cents / 100) ++ ".0" ++ toString (cents % 100)
  else toString (cents / 100) ++ "." ++ toString (cents % 100)

/-- Models JavaScript `n.toFixed(2)` for an exact amount of cents. -/
def toFixed2 (cents : Nat) : String :=
  if cents % 100 < 10 then toString (cents / 100) ++ ".0" ++ toString (cents % 100)
  else toString (cents / 100) ++ "." ++ toString (cents % 100)

/-- A thrown JavaScript error value, as pattern-matched by the source
(`error.name`, `error.message`, `error.status`). -/
structure JsError where
  name : String
  message : String
  status : Option Nat
deriving DecidableEq, Repr

/-- `Math.min(...requests)` over a nonempty list, with accumulator. -/
def listMinInt : Int → List Int → Int
  | m, [] => m
  | m, a :: as => listMinInt (min m a) as

/-- `timeWindow` of both `RateLimiter` versions: one minute in milliseconds. -/
def timeWindow : Int := 60000

/-- `maxRequests` of the deployed `RateLimiter` in `src/lib/openai.ts`. -/
def maxRequests : Nat := 10

/-- `this.requests = this.requests.filter(time => now - time < this.timeWindow)`. -/
def pruneWindow (now : Int) (requests : List Int) : List Int :=
  requests.filter (fun t => now - t < timeWindow)

/-- Deployed `RateLimiter.canMakeRequest` (`src/lib/openai.ts`): prunes the
window, then returns whether the pruned count is below the maximum.  It does
NOT record a timestamp.  Returns (result, new `this.requests`). -/
def canMakeRequest (now : Int) (requests : List Int) : Bool × List Int :=
  let pruned := pruneWindow now requests
  (pruned.length < maxRequests, pruned)

/-- Deployed `RateLimiter.recordRequest`: appends the current time.  Defined
in the source but never invoked by the pipeline. -/
def recordRequest (now : Int) (requests : List Int) : List Int :=
  requests ++ [now]

/-- Deployed `RateLimiter.getWaitTime`: time until the oldest recorded
timestamp exits the window (0 if the window is empty). -/
def getWaitTime (now : Int) (requests : List Int) : Int :=
  match requests with
  | [] => 0
  | t :: ts => max 0 (timeWindow - (now - listMinInt t ts))

/-- `maxRequests` of the alternate `RateLimiter` (the other version of
`openai.ts` in the repository): 5 per minute. -/
def maxRequests5 : Nat := 5

/-- Alternate `RateLimiter.canMakeRequest`: prunes the window, returns
`false` if the pruned count has reached the maximum, otherwise pushes the
current time and returns `true`.  Returns (result, new `this.requests`). -/
def canMakeRequest5 (now : Int) (requests : List Int) : Bool × List Int :=
  let pruned := pruneWindow now requests
  if pruned.length ≥ maxRequests5 then (false, pruned)
  else (true, pruned ++ [now])

/-- Runs a sequence of `canMakeRequest5` calls at the given times, collecting
the returned booleans and threading `this.requests`. -/
def runCalls5 : List Int → List Int → List Bool × List Int
  | [], st => ([], st)
  | t :: ts, st =>
    let (b, st') := canMakeRequest5 t st
    let (bs, st'') := runCalls5 ts st'
    (b :: bs, st'')

/-- A menu item record as produced by the accessors (name, price, category);
price is an exact cent count. -/
structure MenuItemRec where
  name : String
  priceCents : Nat
  category : String
deriving DecidableEq, Repr

/-- Today's revenue figure: `{revenue, orderCount}`, revenue in cents. -/
structure RevenueRec where
  revenueCents : Nat
  orderCount : Nat
deriving DecidableEq, Repr

/-- The success-data shapes of the six accessors (spec table §4.2): a single
item record, a pending-order count, the revenue figure, a list of category
names, or a list of item records. -/
inductive QData where
  | item : MenuItemRec → QData
  | count : Nat → QData
  | revenue : RevenueRec → QData
  | names : List String → QData
  | items : List MenuItemRec → QData
deriving DecidableEq, Repr

/-- `AIResponse` of `src/lib/aiAgent.ts`: `{message, data?, error?}`. -/
structure AIResponse where
  message : String
  data : Option QData := none
  error : Option String := none
deriving DecidableEq, Repr

/-- Modelled from the spec: the `aiQueries` accessor set (`./aiQueries` is
imported by `aiAgent.ts` but its module is not among the repository's source
files).  Per spec §4.2 each accessor is a named operation against the external
store returning `{success:true, data}` (inner `Except.ok`, shape fixed per
accessor) or `{success:false, error}` (inner `Except.error`); the outer
`Except JsError` models the call throwing, which `processMessageInternal`
catches.  One record value fixes the behaviour of every accessor for one run. -/
structure StoreOracle where
  cheapest : Except JsError (Except String MenuItemRec)
  expensive : Except JsError (Except String MenuItemRec)
  byCategory : String → Except JsError (Except String (List MenuItemRec))
  pendingCount : Except JsError (Except String Nat)
  todayRevenue : Except JsError (Except String RevenueRec)
  menuCategories : Except JsError (Except String (List String))

/-- The environment of one `processMessage` run: the outcome of the (at most
one) classification LLM call, the outcome of the (at most one) generation LLM
call, the accessor behaviours, and the `Date.now()` values observed at the two
rate-limiter checks. -/
structure Oracles where
  analyzeLLM : Except JsError (Option String)
  generateLLM : Except JsError (Option String)
  store : StoreOracle
  nowA : Int
  nowG : Int

/-- `Math.ceil(w / 1000)` for a nonnegative millisecond count. -/
def ceilSeconds (w : Int) : Int := (w + 999) / 1000

/-- The keyword fallback at the end of `analyzeQuery`'s catch block:
sequential `includes` tests on the lowercased message, defaulting to
`"general"`. -/
def fallbackClassify (userMessage : String) : String :=
  let message := jsToLower userMessage
  if strIncludes message "cheapest" || strIncludes message "lowest price" then "cheapest_item"
  else if strIncludes message "expensive" || strIncludes message "highest price" then "expensive_item"
  else if strIncludes message "pending" || strIncludes message "orders" then "pending_orders"
  else if strIncludes message "revenue" || strIncludes message "sales" then "revenue"
  else if strIncludes message "categories" || strIncludes message "types" then "categories"
  else if strIncludes message "dessert" then "category_items|dessert"
  else if strIncludes message "drink" || strIncludes message "beverage" then "category_items|drink"
  else "general"

/-- `AIAgent.analyzeQuery`: checks the rate limiter (throwing when it denies),
then interprets the classification LLM call's outcome.  A successful call
yields `content.trim() || 'general'`; a thrown `AbortError`, HTTP 429 or HTTP
401 is re-thrown as a user-facing `Error`; any other failure degrades to the
keyword fallback.  Returns (thrown error or tag, new rate-limiter state). -/
def analyzeQuery (userMessage : String) (now : Int) (rl : List Int)
    (llm : Except JsError (Option String)) : Except JsError String × List Int :=
  let g := canMakeRequest now rl
  if g.1 = false then
    let waitTime := ceilSeconds (getWaitTime now g.2)
    (.error { name := "Error",
              message := "Rate limit exceeded. Please wait " ++ toString waitTime ++ " seconds before trying again.",
              status := none }, g.2)
  else
    match llm with
    | .ok content => (.ok (jsOrDefault (content.map jsTrim) "general"), g.2)
    | .error e =>
      if e.name = "AbortError" then
        (.error { name := "Error", message := "Request timed out. Please try again.", status := none }, g.2)
      else if e.status = some 429 then
        (.error { name := "Error", message := "OpenAI rate limit exceeded. Please wait a moment and try again.", status := none }, g.2)
      else if e.status = some 401 then
        (.error { name := "Error", message := "OpenAI API authentication failed. Please check the API key.", status := none }, g.2)
      else
        (.ok (fallbackClassify userMessage), g.2)

/-- The per-intent template `switch` in `generateResponse`'s catch block.  The
source keys only on `queryType`; because each accessor's success shape is
fixed (spec §4.2), the data constructor always matches the intent tag in the
pipeline, and every other combination falls to the source's `default` branch
string. -/
def fallbackTemplate (queryType : String) (qd : QData) : String :=
  match queryType, qd with
  | "cheapest_item", .item it =>
    "The cheapest item on our menu is " ++ it.name ++ " priced at $" ++ jsNum it.priceCents ++ " in the " ++ it.category ++ " category."
  | "expensive_item", .item it =>
    "The most expensive item is " ++ it.name ++ " at $" ++ jsNum it.priceCents ++ " in the " ++ it.category ++ " category."
  | "pending_orders", .count n =>
    "There are currently " ++ toString n ++ " pending orders."
  | "revenue", .revenue r =>
    "Today\x27s revenue is $" ++ toFixed2 r.revenueCents ++ " from " ++ toString r.orderCount ++ " completed orders."
  | "categories", .names cs =>
    "Our menu categories include: " ++ jsJoin ", " cs ++ "."
  | "category_items", .items its =>
    if its.length > 0 then
      "Here are the items in that category: " ++ jsJoin ", " (its.map (fun it => it.name ++ " ($" ++ jsNum it.priceCents ++ ")")) ++ "."
    else
      "No items found in that category."
  | _, _ => "I found some information but had trouble formatting the response. Please try asking again."

/-- `AIAgent.generateResponse`: returns a rate-limited notice when the limiter
denies; otherwise interprets the generation LLM call's outcome.  Success
yields `content || apology`; an `AbortError` or HTTP 429 yields its dedicated
string; any other failure yields the per-intent template when a query result
is available (and `queryType` is truthy), else a generic apology.  Never
throws.  Returns (message, new rate-limiter state). -/
def generateResponse (userMessage : String) (queryResult : Option QData) (queryType : String)
    (now : Int) (rl : List Int) (llm : Except JsError (Option String)) : String × List Int :=
  let g := canMakeRequest now rl
  if g.1 = false then
    let waitTime := ceilSeconds (getWaitTime now g.2)
    ("I\x27m currently rate limited. Please wait " ++ toString waitTime ++ " seconds before asking another question.", g.2)
  else
    match llm with
    | .ok content =>
      (jsOrDefault content "I apologize, but I encountered an error processing your request.", g.2)
    | .error e =>
      if e.name = "AbortError" then
        ("Request timed out. Please try a simpler question.", g.2)
      else if e.status = some 429 then
        ("I\x27m currently experiencing high demand. Please wait a moment and try again.", g.2)
      else
        match queryResult with
        | some qd =>
          if queryType = "" then
            ("I apologize, but I encountered an error processing your request. Please try again with a simpler question.", g.2)
          else (fallbackTemplate queryType qd, g.2)
        | none =>
          ("I apologize, but I encountered an error processing your request. Please try again with a simpler question.", g.2)

/-- The `try { switch (type) ... } catch` block of `processMessageInternal`:
dispatches the intent type to its accessor and produces
(`queryResult`, `error`).  Exactly one accessor runs per call; a throw from it
is caught and recorded as `'Database query failed'`.  `category_items` runs
its accessor only when the category argument is present and truthy (JavaScript
`if (category)`: absent or empty string skips the call).  Unrecognized types
do nothing. -/
def runQuery (store : StoreOracle) (type : String) (category : Option String) :
    Option QData × Option String :=
  match type with
  | "cheapest_item" =>
    match store.cheapest with
    | .ok (.ok d) => (some (.item d), none)
    | .ok (.error e) => (none, some e)
    | .error _ => (none, some "Database query failed")
  | "expensive_item" =>
    match store.expensive with
    | .ok (.ok d) => (some (.item d), none)
    | .ok (.error e) => (none, some e)
    | .error _ => (none, some "Database query failed")
  | "category_items" =>
    match category with
    | some c =>
      if c = "" then (none, none)
      else
        match store.byCategory c with
        | .ok (.ok d) => (some (.items d), none)
        | .ok (.error e) => (none, some e)
        | .error _ => (none, some "Database query failed")
    | none => (none, none)
  | "pending_orders" =>
    match store.pendingCount with
    | .ok (.ok d) => (some (.count d), none)
    | .ok (.error e) => (none, some e)
    | .error _ => (none, some "Database query failed")
  | "revenue" =>
    match store.todayRevenue with
    | .ok (.ok d) => (some (.revenue d), none)
    | .ok (.error e) => (none, some e)
    | .error _ => (none, some "Database query failed")
  | "categories" =>
    match store.menuCategories with
    | .ok (.ok d) => (some (.names d), none)
    | .ok (.error e) => (none, some e)
    | .error _ => (none, some "Database query failed")
  | _ => (none, none)

/-- `AIAgent.processMessageInternal`: classify, split the tag on `|` into
`(type, category)`, run the matching accessor, then always generate; may
re-throw what `analyzeQuery` throws.  Returns (thrown error or `AIResponse`,
new rate-limiter state). -/
def processMessageInternal (userMessage : String) (o : Oracles) (rl : List Int) :
    Except JsError AIResponse × List Int :=
  match analyzeQuery userMessage o.nowA rl o.analyzeLLM with
  | (.error e, rl') => (.error e, rl')
  | (.ok queryType, rl') =>
    let parts := jsSplitBar queryType
    let type := parts.headD ""
    let category := parts[1]?
    let qr := runQuery o.store type category
    let gen := generateResponse userMessage qr.1 type o.nowG rl' o.generateLLM
    (.ok { message := gen.1, data := qr.1, error := qr.2 }, gen.2)

/-- Which of `processMessageInternal` and the 15-second deadline wins
`Promise.race`: an explicit parameter, since real time is not modelled. -/
inductive RaceOutcome where
  | timedOut
  | completed
deriving DecidableEq, Repr

/-- `processingTimeout` of `AIAgent`: the overall 15-second deadline. -/
def processingTimeout : Nat := 15000

/-- The early-return of `processMessage` when `isProcessing` is already set. -/
def alreadyProcessingResponse : AIResponse :=
  { message := "I\x27m still processing your previous question. Please wait a moment.",
    error := some "Already processing" }

/-- The response `processMessage` builds when the overall deadline fires. -/
def timeoutResponse : AIResponse :=
  { message := "Sorry, that took too long to process. Please try a simpler question.",
    error := some "Timeout" }

/-- `AIAgent.processMessage`: rejects when the guard is set (before the
`try`, guard untouched); otherwise sets the guard, races the pipeline against
the deadline, catches every rejection (`'Processing timeout'` becomes the
timeout response, anything else the `'Processing error'` response built from
`error.message || generic`), and clears the guard in `finally`.  The result
type is `Except` to record that the `async` function could in principle
reject; the theorems show it never does.  Returns
(result, new guard, new rate-limiter state). -/
def processMessage (userMessage : String) (o : Oracles) (race : RaceOutcome)
    (isProcessing : Bool) (rl : List Int) :
    Except JsError AIResponse × Bool × List Int :=
  if isProcessing then
    (.ok alreadyProcessingResponse, isProcessing, rl)
  else
    match race with
    | .timedOut => (.ok timeoutResponse, false, rl)
    | .completed =>
      match processMessageInternal userMessage o rl with
      | (.ok r, rl') => (.ok r, false, rl')
      | (.error e, rl') =>
        if e.message = "Processing timeout" then (.ok timeoutResponse, false, rl')
        else
          (.ok { message := jsOrDefault (some e.message) "I apologize, but I encountered an error. Please try again.",
                 error := some "Processing error" }, false, rl')

/-- The spec's keyword table (§4.3), as ordered data: patterns paired with the
tag they classify to. -/
def keywordTable : List (List String × String) :=
  [(["cheapest", "lowest price"], "cheapest_item"),
   (["expensive", "highest price"], "expensive_item"),
   (["pending", "orders"], "pending_orders"),
   (["revenue", "sales"], "revenue"),
   (["categories", "types"], "categories"),
   (["dessert"], "category_items|dessert"),
   (["drink", "beverage"], "category_items|drink")]

/-- First-match lookup in an ordered keyword table; `"general"` when no
pattern matches. -/
def firstMatchAux (message : String) : List (List String × String) → String
  | [] => "general"
  | (kws, tag) :: rest =>
    if kws.any (fun k => strIncludes message k) then tag else firstMatchAux message rest

/-- The table-driven form of the keyword fallback: the first rule of
`keywordTable` (in order) whose pattern occurs in the message wins. -/
def keywordFirstMatch (message : String) : String :=
  firstMatchAux message keywordTable

/-- The closed set of tags the keyword fallback can produce. -/
def fallbackTags : List String :=
  ["cheapest_item", "expensive_item", "pending_orders", "revenue", "categories",
   "category_items|dessert", "category_items|drink", "general"]

/-- A store whose every accessor reports `{success:false, error:e}`. -/
def failingStore (e : String) : StoreOracle :=
  { cheapest := .ok (.error e),
    expensive := .ok (.error e),
    byCategory := fun _ => .ok (.error e),
    pendingCount := .ok (.error e),
    todayRevenue := .ok (.error e),
    menuCategories := .ok (.error e) }

/-- A store whose `byCategory` accessor succeeds with a detectable nonempty
list, so that any call to it is visible in the final response. -/
def sentinelStore : StoreOracle :=
  { cheapest := .ok (.error "unused"),
    expensive := .ok (.error "unused"),
    byCategory := fun _ => .ok (.ok [{ name := "Sentinel", priceCents := 100, category := "x" }]),
    pendingCount := .ok (.error "unused"),
    todayRevenue := .ok (.error "unused"),
    menuCategories := .ok (.error "unused") }

/-- An error value with no special name and no HTTP status: the generic LLM
failure that triggers the deterministic fallbacks. -/
def genericError : JsError :=
  { name := "TypeError", message := "fetch failed", status := none }

/-- An `AbortError`, as produced by the 8-second per-call timeout. -/
def abortError : JsError :=
  { name := "AbortError", message := "The operation was aborted", status := none }

deriving instance DecidableEq for Except

theorem analyzeQuery_admit_ok (userMessage : String) (now : Int) (rl : List Int)
    (content : Option String)
    (h : (pruneWindow now rl).length < maxRequests) :
    analyzeQuery userMessage now rl (.ok content) =
      (.ok (jsOrDefault (content.map jsTrim) "general"), pruneWindow now rl) := by
  unfold analyzeQuery canMakeRequest
  simp [h]

theorem analyzeQuery_admit_generic (userMessage : String) (now : Int) (rl : List Int)
    (e : JsError)
    (h : (pruneWindow now rl).length < maxRequests)
    (hname : e.name ≠ "AbortError")
    (h429 : e.status ≠ some 429)
    (h401 : e.status ≠ some 401) :
    analyzeQuery userMessage now rl (.error e) =
      (.ok (fallbackClassify userMessage), pruneWindow now rl) := by
  unfold analyzeQuery canMakeRequest
  simp [h, hname, h429, h401]

theorem analyzeQuery_rl_nil (userMessage : String) (now : Int)
    (llm : Except JsError (Option String)) :
    (analyzeQuery userMessage now [] llm).2 = [] := by
  unfold analyzeQuery canMakeRequest pruneWindow
  cases llm with
  | ok content => (repeat' split) <;> rfl
  | error e => (repeat' split) <;> rfl

theorem generateResponse_rl_nil (userMessage : String) (queryResult : Option QData)
    (queryType : String) (now : Int) (llm : Except JsError (Option String)) :
    (generateResponse userMessage queryResult queryType now [] llm).2 = [] := by
  unfold generateResponse canMakeRequest pruneWindow
  cases llm with
  | ok content => (repeat' split) <;> rfl
  | error e => (repeat' split) <;> rfl

theorem processMessageInternal_rl_nil (userMessage : String) (o : Oracles) :
    (processMessageInternal userMessage o []).2 = [] := by
  unfold processMessageInternal
  have hA := analyzeQuery_rl_nil userMessage o.nowA o.analyzeLLM
  rcases hE : analyzeQuery userMessage o.nowA [] o.analyzeLLM with ⟨res, rl'⟩
  rw [hE] at hA
  simp only at hA
  subst hA
  cases res with
  | error e => simp
  | ok queryType => simp [generateResponse_rl_nil]

/-- C1: For every input string and every behaviour of the intent classifier,
the data accessors, and the response generator (each allowed to throw),
`processMessage` returns a structured `AIResponse` (whose `message` field is a
string by type); no exception propagates to its caller: the result is always
`Except.ok`, for every oracle behaviour, race outcome, guard value and
rate-limiter state. -/
theorem processMessage_never_throws (userMessage : String) (o : Oracles)
    (race : RaceOutcome) (g : Bool) (rl : List Int) :
    ∃ (r : AIResponse) (g' : Bool) (rl' : List Int),
      processMessage userMessage o race g rl = (.ok r, g', rl') := by
  unfold processMessage
  by_cases hg : g
  · exact ⟨alreadyProcessingResponse, g, rl, by simp [hg]⟩
  · simp only [hg, if_false, Bool.false_eq_true]
    cases race with
    | timedOut => exact ⟨_, _, _, rfl⟩
    | completed =>
      rcases hpi : processMessageInternal userMessage o rl with ⟨res, rl'⟩
      cases res with
      | ok r => exact ⟨_, _, _, rfl⟩
      | error e =>
        by_cases hm : e.message = "Processing timeout"
        · exact ⟨timeoutResponse, false, rl', by simp [hm]⟩
        · exact ⟨{ message := jsOrDefault (some e.message) "I apologize, but I encountered an error. Please try again.",
                   error := some "Processing error" }, false, rl', by simp [hm]⟩

/-- C3: If `processMessage` is invoked while the processing guard is set, it
returns the still-processing response with error tag `"Already processing"`
immediately; the guard and the rate-limiter window are unchanged, and the
result does not depend on any oracle (no accessor or LLM call is made): the
right-hand side mentions neither `o` nor `race`. -/
theorem processMessage_already_processing_short_circuit (userMessage : String)
    (o : Oracles) (race : RaceOutcome) (rl : List Int) :
    processMessage userMessage o race true rl = (.ok alreadyProcessingResponse, true, rl) := by
  unfold processMessage
  simp

/-- C4: When the pipeline has not produced a result by the 15-second deadline
(the race resolves to `timedOut`), `processMessage` returns exactly the
response with error `"Timeout"` and the took-too-long message, and the guard
comes back cleared; moreover every `processMessage` call that starts with the
guard clear ends with it clear (the guard is released on every exit path), so
a subsequent call is never rejected as already processing. -/
theorem processMessage_timeout_response_and_guard_cleared (userMessage : String)
    (o : Oracles) (rl : List Int) :
    processMessage userMessage o .timedOut false rl = (.ok timeoutResponse, false, rl)
    ∧ ∀ (m2 : String) (o2 : Oracles) (r2 : RaceOutcome) (rl2 : List Int),
        (processMessage m2 o2 r2 false rl2).2.1 = false := by
  constructor
  · rfl
  · intro m2 o2 r2 rl2
    unfold processMessage
    simp only [Bool.false_eq_true, if_false]
    cases r2 with
    | timedOut => rfl
    | completed =>
      rcases hpi : processMessageInternal m2 o2 rl2 with ⟨res, rl'⟩
      cases res with
      | ok r => rfl
      | error e =>
        by_cases hm : e.message = "Processing timeout" <;> simp [hm]

/-- C5: The alternate rate limiter's admission check (`canMakeRequest5`)
first prunes timestamps older than the 60-second window, then admits —
appending the current timestamp and returning `true` — exactly when the
pruned count is below the configured maximum (5), and otherwise returns
`false` leaving the pruned window unchanged.  Consequently, starting from an
empty window, five admissions at time 0 all return `true`, the sixth call
returns `false`, and a call at time 60000 — once the oldest timestamp has
expired from the window — returns `true` again. -/
theorem canMakeRequest5_admission_spec :
    (∀ (now : Int) (st : List Int),
      canMakeRequest5 now st =
        (decide ((pruneWindow now st).length < maxRequests5),
         if (pruneWindow now st).length < maxRequests5
         then pruneWindow now st ++ [now]
         else pruneWindow now st))
    ∧ (runCalls5 [0, 0, 0, 0, 0, 0] []).1 = [true, true, true, true, true, false]
    ∧ (canMakeRequest5 60000 (runCalls5 [0, 0, 0, 0, 0, 0] []).2).1 = true := by
  refine ⟨fun now st => ?_, by decide, by decide⟩
  unfold canMakeRequest5
  by_cases h : (pruneWindow now st).length < maxRequests5
  · have h' : ¬ (pruneWindow now st).length ≥ maxRequests5 := by omega
    simp [h, h']
  · have h' : (pruneWindow now st).length ≥ maxRequests5 := by omega
    simp [h, h']

/-- C10: The deployed rate limiter's `canMakeRequest` mutates the window only
by pruning expired entries (the new state is exactly the pruned window, whose
length never exceeds the old one) and never appends a timestamp; on an empty
window it always admits and leaves the window empty; and since `recordRequest`
is never invoked anywhere in the pipeline, any `processMessage` run that
starts with an empty window ends with an empty window, for every oracle
behaviour — so the configured per-minute maximum is never reached through
this code path. -/
theorem deployed_rateLimiter_never_records :
    (∀ (now : Int) (st : List Int),
      canMakeRequest now st = (decide ((pruneWindow now st).length < maxRequests), pruneWindow now st))
    ∧ (∀ (now : Int) (st : List Int), (canMakeRequest now st).2.length ≤ st.length)
    ∧ (∀ now : Int, canMakeRequest now [] = (true, []))
    ∧ (∀ (userMessage : String) (o : Oracles) (race : RaceOutcome) (g : Bool),
        (processMessage userMessage o race g []).2.2 = []) := by
  refine ⟨fun now st => rfl, fun now st => List.length_filter_le _ _, fun now => rfl, ?_⟩
  intro userMessage o race g
  unfold processMessage
  by_cases hg : g
  · simp [hg]
  · simp only [hg, if_false, Bool.false_eq_true]
    cases race with
    | timedOut => rfl
    | completed =>
      have h2 := processMessageInternal_rl_nil userMessage o
      rcases hpi : processMessageInternal userMessage o [] with ⟨res, rl'⟩
      rw [hpi] at h2
      simp only at h2
      subst h2
      cases res with
      | ok r => simp
      | error e => by_cases hm : e.message = "Processing timeout" <;> simp [hm]

/-- C2 counterexample: the claim says `analyzeQuery` never throws and always
returns an intent tag when its primary LLM path fails; but when the LLM call
fails with an `AbortError` (the per-call timeout), `analyzeQuery` throws a
`'Request timed out. Please try again.'` error to its caller instead of
returning a tag.  (The rate-limit, HTTP 429 and HTTP 401 paths throw too.) -/
theorem analyzeQuery_abort_throws_counterexample :
    (analyzeQuery "What is the cheapest item?" 0 [] (.error abortError)).1 =
      .error { name := "Error", message := "Request timed out. Please try again.", status := none } := by
  rfl

/-- C2 amended: when the classification LLM call fails with any error other
than an abort, HTTP 429 or HTTP 401 — and the rate limiter admitted the call —
`analyzeQuery` does not throw: it returns the keyword-fallback tag, which is
always one of the valid tags (degrading to `"general"` when no keyword
matches).  On abort/429/401 failures and on rate-limit denial it instead
throws (the throw is caught by `processMessage`). -/
theorem analyzeQuery_generic_failure_falls_back (userMessage : String) (now : Int)
    (rl : List Int) (e : JsError)
    (hrate : (pruneWindow now rl).length < maxRequests)
    (hname : e.name ≠ "AbortError")
    (h429 : e.status ≠ some 429)
    (h401 : e.status ≠ some 401) :
    (analyzeQuery userMessage now rl (.error e)).1 = .ok (fallbackClassify userMessage)
    ∧ fallbackClassify userMessage ∈ fallbackTags := by
  refine ⟨by rw [analyzeQuery_admit_generic userMessage now rl e hrate hname h429 h401], ?_⟩
  simp only [fallbackClassify, fallbackTags]
  split_ifs <;> simp

theorem analyzeQuery_generic_failure_falls_back_witness :
    (analyzeQuery "How are you today?" 0 [] (.error genericError)).1 =
      .ok (fallbackClassify "How are you today?")
    ∧ fallbackClassify "How are you today?" ∈ fallbackTags :=
  analyzeQuery_generic_failure_falls_back "How are you today?" 0 [] genericError
    (by decide) (by decide) (by decide) (by decide)

/-- C6 counterexample: the claim reads each keyword rule as unconditional
("any utterance containing `expensive` ... yields `expensive_item`"), but the
fallback tests the rules sequentially: an utterance containing both
`cheapest` and `expensive` yields `cheapest_item`, not `expensive_item`. -/
theorem fallbackClassify_priority_counterexample :
    strIncludes (jsToLower "List the cheapest and most expensive items") "expensive" = true
    ∧ fallbackClassify "List the cheapest and most expensive items" = "cheapest_item"
    ∧ fallbackClassify "List the cheapest and most expensive items" ≠ "expensive_item" := by
  refine ⟨by decide, by decide, by decide⟩

/-- C6 amended: the keyword fallback applies its rules in the listed order to
the lowercased utterance — the first rule whose keyword occurs in the message
wins — and yields `"general"` when no keyword of the table matches; the
keyword/tag pairs and their order are exactly those of `keywordTable`. -/
theorem fallbackClassify_eq_keywordFirstMatch (s : String) :
    fallbackClassify s = keywordFirstMatch (jsToLower s) := by
  unfold fallbackClassify keywordFirstMatch keywordTable
  simp only [firstMatchAux, List.any_cons, List.any_nil, Bool.or_false]

theorem processMessageInternal_shape (userMessage : String) (o : Oracles) (rl : List Int)
    (tag type : String) (category : Option String)
    (hA : o.analyzeLLM = .ok (some tag))
    (hrate : (pruneWindow o.nowA rl).length < maxRequests)
    (htrim : jsTrim tag = tag) (hne : tag ≠ "")
    (htype : (jsSplitBar tag).headD "" = type)
    (hcat : (jsSplitBar tag)[1]? = category) :
    processMessageInternal userMessage o rl =
      (.ok { message := (generateResponse userMessage (runQuery o.store type category).1 type
                           o.nowG (pruneWindow o.nowA rl) o.generateLLM).1,
             data := (runQuery o.store type category).1,
             error := (runQuery o.store type category).2 },
       (generateResponse userMessage (runQuery o.store type category).1 type
          o.nowG (pruneWindow o.nowA rl) o.generateLLM).2) := by
  unfold processMessageInternal
  rw [hA, analyzeQuery_admit_ok userMessage o.nowA rl (some tag) hrate]
  have h1 : jsOrDefault (Option.map jsTrim (some tag)) "general" = tag := by
    simp [jsOrDefault, htrim, hne]
  simp only [h1, htype, hcat]

/-- C7 counterexample: the claim says that whenever the response generator's
primary LLM path fails and a query result is available, the output is exactly
the per-intent template; but when the failure is an `AbortError` (per-call
timeout), the output is the timed-out string, not the revenue template. -/
theorem generateResponse_abort_counterexample :
    (generateResponse "What is todays revenue?"
        (some (QData.revenue { revenueCents := 24550, orderCount := 12 })) "revenue"
        0 [] (.error abortError)).1
      = "Request timed out. Please try a simpler question."
    ∧ (generateResponse "What is todays revenue?"
        (some (QData.revenue { revenueCents := 24550, orderCount := 12 })) "revenue"
        0 [] (.error abortError)).1
      ≠ fallbackTemplate "revenue" (QData.revenue { revenueCents := 24550, orderCount := 12 }) := by
  refine ⟨rfl, by decide⟩

/-- C7 amended: when the generation LLM call fails with any error other than
an abort or HTTP 429, the rate limiter admitted the call, and a query result
is available (with a truthy intent tag), the returned string is exactly the
per-intent template substitution; in particular the revenue template at
`{revenue: 245.50, orderCount: 12}` is exactly
"Today's revenue is $245.50 from 12 completed orders." and the
`category_items` template at the empty list is exactly
"No items found in that category." -/
theorem generateResponse_template_on_generic_failure (userMessage queryType : String)
    (qd : QData) (now : Int) (rl : List Int) (e : JsError)
    (hrate : (pruneWindow now rl).length < maxRequests)
    (hname : e.name ≠ "AbortError")
    (h429 : e.status ≠ some 429)
    (htype : queryType ≠ "") :
    (generateResponse userMessage (some qd) queryType now rl (.error e)).1
      = fallbackTemplate queryType qd
    ∧ fallbackTemplate "revenue" (QData.revenue { revenueCents := 24550, orderCount := 12 })
      = "Today\x27s revenue is $245.50 from 12 completed orders."
    ∧ fallbackTemplate "category_items" (QData.items [])
      = "No items found in that category." := by
  refine ⟨?_, by decide, by decide⟩
  unfold generateResponse canMakeRequest
  simp [hrate, hname, h429, htype]

theorem generateResponse_template_on_generic_failure_witness :
    (generateResponse "What\x27s today\x27s revenue?"
        (some (QData.revenue { revenueCents := 24550, orderCount := 12 })) "revenue"
        0 [] (.error genericError)).1
      = fallbackTemplate "revenue" (QData.revenue { revenueCents := 24550, orderCount := 12 })
    ∧ fallbackTemplate "revenue" (QData.revenue { revenueCents := 24550, orderCount := 12 })
      = "Today\x27s revenue is $245.50 from 12 completed orders."
    ∧ fallbackTemplate "category_items" (QData.items [])
      = "No items found in that category." :=
  generateResponse_template_on_generic_failure "What\x27s today\x27s revenue?" "revenue"
    (QData.revenue { revenueCents := 24550, orderCount := 12 }) 0 [] genericError
    (by decide) (by decide) (by decide) (by decide)

/-- C8: when the classifier yields one of the six accessor-backed intents and
that accessor reports `{success:false, error:e}`, the pipeline does not
abort: the response generator is still invoked (the final message is exactly
its output on a null query result), the final response carries `e` in its
`error` field, and its `data` field is null. -/
theorem accessor_failure_continues_to_generation (userMessage tag e : String)
    (genLLM : Except JsError (Option String)) (nowA nowG : Int) (rl : List Int)
    (htag : tag ∈ ["cheapest_item", "expensive_item", "category_items|dessert",
                   "pending_orders", "revenue", "categories"])
    (hrate : (pruneWindow nowA rl).length < maxRequests) :
    processMessageInternal userMessage
        { analyzeLLM := .ok (some tag), generateLLM := genLLM,
          store := failingStore e, nowA := nowA, nowG := nowG } rl
      = (.ok { message := (generateResponse userMessage none ((jsSplitBar tag).headD "")
                            nowG (pruneWindow nowA rl) genLLM).1,
               data := none,
               error := some e },
         (generateResponse userMessage none ((jsSplitBar tag).headD "")
            nowG (pruneWindow nowA rl) genLLM).2) := by
  simp only [List.mem_cons, List.mem_singleton, List.not_mem_nil, or_false] at htag
  rcases htag with rfl | rfl | rfl | rfl | rfl | rfl
  · rw [processMessageInternal_shape userMessage
        { analyzeLLM := .ok (some "cheapest_item"), generateLLM := genLLM,
          store := failingStore e, nowA := nowA, nowG := nowG } rl
        "cheapest_item" "cheapest_item" none rfl hrate
        (by decide) (by decide) (by decide) (by decide)]
    rfl
  · rw [processMessageInternal_shape userMessage
        { analyzeLLM := .ok (some "expensive_item"), generateLLM := genLLM,
          store := failingStore e, nowA := nowA, nowG := nowG } rl
        "expensive_item" "expensive_item" none rfl hrate
        (by decide) (by decide) (by decide) (by decide)]
    rfl
  · rw [processMessageInternal_shape userMessage
        { analyzeLLM := .ok (some "category_items|dessert"), generateLLM := genLLM,
          store := failingStore e, nowA := nowA, nowG := nowG } rl
        "category_items|dessert" "category_items" (some "dessert") rfl hrate
        (by decide) (by decide) (by decide) (by decide)]
    rfl
  · rw [processMessageInternal_shape userMessage
        { analyzeLLM := .ok (some "pending_orders"), generateLLM := genLLM,
          store := failingStore e, nowA := nowA, nowG := nowG } rl
        "pending_orders" "pending_orders" none rfl hrate
        (by decide) (by decide) (by decide) (by decide)]
    rfl
  · rw [processMessageInternal_shape userMessage
        { analyzeLLM := .ok (some "revenue"), generateLLM := genLLM,
          store := failingStore e, nowA := nowA, nowG := nowG } rl
        "revenue" "revenue" none rfl hrate
        (by decide) (by decide) (by decide) (by decide)]
    rfl
  · rw [processMessageInternal_shape userMessage
        { analyzeLLM := .ok (some "categories"), generateLLM := genLLM,
          store := failingStore e, nowA := nowA, nowG := nowG } rl
        "categories" "categories" none rfl hrate
        (by decide) (by decide) (by decide) (by decide)]
    rfl

theorem accessor_failure_continues_to_generation_witness :
    processMessageInternal "What\x27s today\x27s revenue?"
        { analyzeLLM := .ok (some "revenue"), generateLLM := .error genericError,
          store := failingStore "store unreachable", nowA := 0, nowG := 0 } []
      = (.ok { message := (generateResponse "What\x27s today\x27s revenue?" none
                            ((jsSplitBar "revenue").headD "") 0 (pruneWindow 0 []) (.error genericError)).1,
               data := none,
               error := some "store unreachable" },
         (generateResponse "What\x27s today\x27s revenue?" none
            ((jsSplitBar "revenue").headD "") 0 (pruneWindow 0 []) (.error genericError)).2) :=
  accessor_failure_continues_to_generation "What\x27s today\x27s revenue?" "revenue"
    "store unreachable" (.error genericError) 0 0 [] (by decide) (by decide)

/-- C9 counterexample: the claim says a `category_items` tag with a missing
argument short-circuits to an EMPTY-LIST query result; in fact the query
result stays null: the final response has `data = none` (not
`some (QData.items [])`), and with the generator degraded its message is the
generic apology, not "No items found in that category."  The sentinel store
shows the accessor was not called (its result would otherwise appear in
`data`). -/
theorem categoryItems_missing_arg_counterexample :
    processMessageInternal "show me items"
        { analyzeLLM := .ok (some "category_items"), generateLLM := .error genericError,
          store := sentinelStore, nowA := 0, nowG := 0 } []
      = (.ok { message := "I apologize, but I encountered an error processing your request. Please try again with a simpler question.",
               data := none, error := none }, [])
    ∧ (processMessageInternal "show me items"
        { analyzeLLM := .ok (some "category_items"), generateLLM := .error genericError,
          store := sentinelStore, nowA := 0, nowG := 0 } []).1
      ≠ .ok { message := "No items found in that category.",
              data := some (QData.items []), error := none } := by
  refine ⟨rfl, by decide⟩

/-- C9 amended: a classified `category_items` tag whose argument is missing
(`"category_items"`) or empty (`"category_items|"`) short-circuits, leaving
the query result null (`data = none`, `error = none`) without calling the
data store — the pipeline's outcome is identical for any two stores — and the
whole request still completes with the generator's output as its message. -/
theorem categoryItems_missing_arg_skips_store (userMessage tag : String)
    (genLLM : Except JsError (Option String)) (s1 s2 : StoreOracle)
    (nowA nowG : Int) (rl : List Int)
    (htag : tag = "category_items" ∨ tag = "category_items|")
    (hrate : (pruneWindow nowA rl).length < maxRequests) :
    processMessageInternal userMessage
        { analyzeLLM := .ok (some tag), generateLLM := genLLM,
          store := s1, nowA := nowA, nowG := nowG } rl
      = processMessageInternal userMessage
          { analyzeLLM := .ok (some tag), generateLLM := genLLM,
            store := s2, nowA := nowA, nowG := nowG } rl
    ∧ (processMessageInternal userMessage
        { analyzeLLM := .ok (some tag), generateLLM := genLLM,
          store := s1, nowA := nowA, nowG := nowG } rl).1
      = .ok { message := (generateResponse userMessage none "category_items"
                           nowG (pruneWindow nowA rl) genLLM).1,
              data := none, error := none } := by
  rcases htag with rfl | rfl
  · rw [processMessageInternal_shape userMessage
        { analyzeLLM := .ok (some "category_items"), generateLLM := genLLM,
          store := s1, nowA := nowA, nowG := nowG } rl
        "category_items" "category_items" none rfl hrate
        (by decide) (by decide) (by decide) (by decide),
        processMessageInternal_shape userMessage
        { analyzeLLM := .ok (some "category_items"), generateLLM := genLLM,
          store := s2, nowA := nowA, nowG := nowG } rl
        "category_items" "category_items" none rfl hrate
        (by decide) (by decide) (by decide) (by decide)]
    exact ⟨rfl, rfl⟩
  · rw [processMessageInternal_shape userMessage
        { analyzeLLM := .ok (some "category_items|"), generateLLM := genLLM,
          store := s1, nowA := nowA, nowG := nowG } rl
        "category_items|" "category_items" (some "") rfl hrate
        (by decide) (by decide) (by decide) (by decide),
        processMessageInternal_shape userMessage
        { analyzeLLM := .ok (some "category_items|"), generateLLM := genLLM,
          store := s2, nowA := nowA, nowG := nowG } rl
        "category_items|" "category_items" (some "") rfl hrate
        (by decide) (by decide) (by decide) (by decide)]
    exact ⟨rfl, rfl⟩

theorem categoryItems_missing_arg_skips_store_witness :
    processMessageInternal "show me the items"
        { analyzeLLM := .ok (some "category_items"), generateLLM := .error genericError,
          store := sentinelStore, nowA := 0, nowG := 0 } []
      = processMessageInternal "show me the items"
          { analyzeLLM := .ok (some "category_items"), generateLLM := .error genericError,
            store := failingStore "boom", nowA := 0, nowG := 0 } []
    ∧ (processMessageInternal "show me the items"
        { analyzeLLM := .ok (some "category_items"), generateLLM := .error genericError,
          store := sentinelStore, nowA := 0, nowG := 0 } []).1
      = .ok { message := (generateResponse "show me the items" none "category_items"
                           0 (pruneWindow 0 []) (.error genericError)).1,
              data := none, error := none } :=
  categoryItems_missing_arg_skips_store "show me the items" "category_items"
    (.error genericError) sentinelStore (failingStore "boom") 0 0 []
    (Or.inl rfl) (by decide)

